import Mathlib

/-!
Verification of the constructive-solid-geometry region algebra.

The development shallowly embeds the library's data model and
operations: surfaces with implicit evaluation functions, region
expression trees with point-containment evaluation, the conservative
bounding-box inference pass, and the cell/universe spatial partition.
Machine floating-point values are modelled as real numbers (with
extended reals for the bounding-box bounds, whose computation starts
from plus/minus infinity), and Rust HashMap collections are modelled
as association lists queried by key lookup.

The region module keeps the id-indexed surface table consulted at
evaluation time; the cell module stores surface references directly in
the halfspace leaves, as its constructors do.
-/

namespace CSG

/-- A point in 3-space, modelling the Rust tuple of three f64. -/
abbrev Point : Type := ℝ × ℝ × ℝ

/-- from surface.rs: enum BoundaryType. -/
inductive BoundaryType : Type
  | Transmission : BoundaryType
  | Vacuum : BoundaryType
deriving DecidableEq, Repr

/-- from surface.rs: Default for BoundaryType is Vacuum. -/
def BoundaryType.defaultValue : BoundaryType := BoundaryType.Vacuum

/-- The lowercasing of a string, modelling str::to_lowercase as a
character-wise map (the recognised names are ASCII, where the two
agree). -/
def to_lowercase (s : String) : String :=
  ⟨s.data.map Char.toLower⟩

/-- from surface.rs: BoundaryType.from_str_option, which lowercases the
input and matches it against the two recognised names. -/
def BoundaryType.from_str_option (s : String) : Option BoundaryType :=
  if to_lowercase s = "transmission" then some BoundaryType.Transmission
  else if to_lowercase s = "vacuum" then some BoundaryType.Vacuum
  else none

/-- from surface.rs: enum SurfaceKind. The sphere is stored by the
coordinates of its center and its radius, the cylinder by axis, origin
and radius. -/
inductive SurfaceKind : Type
  | Plane (a b c d : ℝ)
  | Sphere (x0 y0 z0 radius : ℝ)
  | Cylinder (axis origin : ℝ × ℝ × ℝ) (radius : ℝ)

/-- from surface.rs: struct Surface. -/
structure Surface : Type where
  surface_id : ℕ
  kind : SurfaceKind
  boundary_type : BoundaryType

/-- from surface.rs: Surface::new_sphere; a missing boundary type
defaults to Vacuum (unwrap_or_default). -/
def Surface.new_sphere (x0 y0 z0 radius : ℝ) (surface_id : ℕ)
    (boundary_type : Option BoundaryType) : Surface :=
  { surface_id := surface_id
    kind := SurfaceKind.Sphere x0 y0 z0 radius
    boundary_type := boundary_type.getD BoundaryType.defaultValue }

/-- from surface.rs: Surface::sphere delegates to new_sphere. -/
def Surface.sphere (x0 y0 z0 radius : ℝ) (surface_id : ℕ)
    (boundary_type : Option BoundaryType) : Surface :=
  Surface.new_sphere x0 y0 z0 radius surface_id boundary_type

/-- from surface.rs: Surface::sphere_str parses the optional boundary
string and fails with a validation message when the text is not
recognised. -/
def Surface.sphere_str (x0 y0 z0 radius : ℝ) (surface_id : ℕ)
    (boundary_type : Option String) : Except String Surface :=
  match boundary_type with
  | some s =>
      match BoundaryType.from_str_option s with
      | some bt =>
          Except.ok (Surface.sphere x0 y0 z0 radius surface_id (some bt))
      | none => Except.error "boundary_type must be 'transmission' or 'vacuum'"
  | none => Except.ok (Surface.sphere x0 y0 z0 radius surface_id none)

/-- from surface.rs: Surface::evaluate, the implicit function of the
surface.  The machine square root of a nonnegative float is modelled
by the real square root. -/
noncomputable def Surface.evaluate (s : Surface) (p : Point) : ℝ :=
  match s.kind with
  | SurfaceKind.Plane a b c d => a * p.1 + b * p.2.1 + c * p.2.2 - d
  | SurfaceKind.Sphere x0 y0 z0 radius =>
      Real.sqrt ((p.1 - x0) * (p.1 - x0) + (p.2.1 - y0) * (p.2.1 - y0) +
        (p.2.2 - z0) * (p.2.2 - z0)) - radius
  | SurfaceKind.Cylinder axis origin radius =>
      let v : ℝ × ℝ × ℝ := (p.1 - origin.1, p.2.1 - origin.2.1, p.2.2 - origin.2.2)
      let dot : ℝ := v.1 * axis.1 + v.2.1 * axis.2.1 + v.2.2 * axis.2.2
      let d : ℝ × ℝ × ℝ :=
        (v.1 - dot * axis.1, v.2.1 - dot * axis.2.1, v.2.2 - dot * axis.2.2)
      Real.sqrt (d.1 * d.1 + d.2.1 * d.2.1 + d.2.2 * d.2.2) - radius

/-- The id-indexed surface table of region.rs (HashMap of usize to
Surface), modelled as an association list; get is key lookup. -/
abbrev SurfaceMap : Type := List (ℕ × Surface)

/-- from region.rs: enum HalfspaceType, holding the surface id. -/
inductive HalfspaceType : Type
  | Above (id : ℕ)
  | Below (id : ℕ)

/-- from region.rs: enum RegionExpr. -/
inductive RegionExpr : Type
  | Halfspace (hs : HalfspaceType)
  | Union (a b : RegionExpr)
  | Intersection (a b : RegionExpr)
  | Complement (r : RegionExpr)

/-- from region.rs: RegionExpr::evaluate_contains.  A halfspace leaf
looks its surface up in the table and compares the implicit function
with zero; a missing id yields false; the connectives are evaluated
recursively. -/
def RegionExpr.evaluate_contains :
    RegionExpr → Point → SurfaceMap → Prop
  | RegionExpr.Halfspace (HalfspaceType.Above id), p, surfaces =>
      match surfaces.lookup id with
      | some s => s.evaluate p > 0
      | none => False
  | RegionExpr.Halfspace (HalfspaceType.Below id), p, surfaces =>
      match surfaces.lookup id with
      | some s => s.evaluate p < 0
      | none => False
  | RegionExpr.Union a b, p, surfaces =>
      a.evaluate_contains p surfaces ∨ b.evaluate_contains p surfaces
  | RegionExpr.Intersection a b, p, surfaces =>
      a.evaluate_contains p surfaces ∧ b.evaluate_contains p surfaces
  | RegionExpr.Complement r, p, surfaces =>
      ¬ r.evaluate_contains p surfaces

/-- from region.rs: struct Region wraps a RegionExpr. -/
structure Region : Type where
  expr : RegionExpr

/-- from region.rs: Region::new_from_halfspace. -/
def Region.new_from_halfspace (halfspace_type : HalfspaceType) : Region :=
  { expr := RegionExpr.Halfspace halfspace_type }

/-- from region.rs: Region::intersection builds a new tree. -/
def Region.intersection (r other : Region) : Region :=
  { expr := RegionExpr.Intersection r.expr other.expr }

/-- from region.rs: Region::union builds a new tree. -/
def Region.union (r other : Region) : Region :=
  { expr := RegionExpr.Union r.expr other.expr }

/-- from region.rs: Region::complement builds a new tree. -/
def Region.complement (r : Region) : Region :=
  { expr := RegionExpr.Complement r.expr }

/-- from region.rs: Region::contains delegates to the expression. -/
def Region.contains (r : Region) (p : Point) (surfaces : SurfaceMap) : Prop :=
  r.expr.evaluate_contains p surfaces

/-- A triple of extended reals, modelling an [f64; 3] of a bounding
box (which may hold plus or minus infinity). -/
abbrev V3 : Type := EReal × EReal × EReal

/-- A pair of per-axis (lower, upper) bounds for x, y and z, modelling
the three mutable f64 pairs of the bounding-box pass. -/
abbrev Bounds3 : Type := (EReal × EReal) × (EReal × EReal) × (EReal × EReal)

/-- from bounding_box.rs: struct BoundingBox. -/
structure BoundingBox : Type where
  lower_left_corner : V3
  upper_right_corner : V3
  center : V3
  width : V3

/-- from bounding_box.rs: BoundingBox::new derives center and width
from the two corners. -/
noncomputable def BoundingBox.new (lower upper : V3) : BoundingBox :=
  { lower_left_corner := lower
    upper_right_corner := upper
    center :=
      (((0.5 : ℝ) : EReal) * (lower.1 + upper.1),
       ((0.5 : ℝ) : EReal) * (lower.2.1 + upper.2.1),
       ((0.5 : ℝ) : EReal) * (lower.2.2 + upper.2.2))
    width :=
      (upper.1 - lower.1, upper.2.1 - lower.2.1, upper.2.2 - lower.2.2) }

/-- from region.rs: the Halfspace arm of collect_axis_bounds.  A Below
halfspace of an axis-aligned plane tightens the upper bound of its
axis with min, an Above halfspace tightens the lower bound with max;
any other surface, a non-axis-aligned plane, or a missing id leaves
the bounds unchanged. -/
noncomputable def collect_halfspace_bounds (surfaces : SurfaceMap)
    (hs : HalfspaceType) (bds : Bounds3) : Bounds3 :=
  match hs with
  | HalfspaceType.Below id =>
      match surfaces.lookup id with
      | some surf =>
          match surf.kind with
          | SurfaceKind.Plane a b c d =>
              if a = 1 ∧ b = 0 ∧ c = 0 then
                ((bds.1.1, min bds.1.2 (d : EReal)), bds.2.1, bds.2.2)
              else if a = 0 ∧ b = 1 ∧ c = 0 then
                (bds.1, (bds.2.1.1, min bds.2.1.2 (d : EReal)), bds.2.2)
              else if a = 0 ∧ b = 0 ∧ c = 1 then
                (bds.1, bds.2.1, (bds.2.2.1, min bds.2.2.2 (d : EReal)))
              else bds
          | _ => bds
      | none => bds
  | HalfspaceType.Above id =>
      match surfaces.lookup id with
      | some surf =>
          match surf.kind with
          | SurfaceKind.Plane a b c d =>
              if a = 1 ∧ b = 0 ∧ c = 0 then
                ((max bds.1.1 (d : EReal), bds.1.2), bds.2.1, bds.2.2)
              else if a = 0 ∧ b = 1 ∧ c = 0 then
                (bds.1, (max bds.2.1.1 (d : EReal), bds.2.1.2), bds.2.2)
              else if a = 0 ∧ b = 0 ∧ c = 1 then
                (bds.1, bds.2.1, (max bds.2.2.1 (d : EReal), bds.2.2.2))
              else bds
          | _ => bds
      | none => bds

/-- from region.rs: collect_axis_bounds walks the tree, recursing only
through Intersection nodes and reading bounds off Halfspace leaves;
every other node (Union, Complement) contributes nothing. -/
noncomputable def collect_axis_bounds (surfaces : SurfaceMap) :
    RegionExpr → Bounds3 → Bounds3
  | RegionExpr.Intersection a b, bds =>
      collect_axis_bounds surfaces b (collect_axis_bounds surfaces a bds)
  | RegionExpr.Halfspace hs, bds => collect_halfspace_bounds surfaces hs bds
  | _, bds => bds

/-- from region.rs: the sphere scan of bounding_box_with_surfaces,
which walks the surface table and takes the box of the first sphere it
meets, if any. -/
def find_sphere_bounds : SurfaceMap → Option ((ℝ × ℝ × ℝ) × (ℝ × ℝ × ℝ))
  | [] => none
  | (_, surf) :: rest =>
      match surf.kind with
      | SurfaceKind.Sphere x0 y0 z0 radius =>
          some ((x0 - radius, y0 - radius, z0 - radius),
                (x0 + radius, y0 + radius, z0 + radius))
      | _ => find_sphere_bounds rest

/-- from region.rs: the lower and upper corners computed by
bounding_box_with_surfaces before the emptiness check: axis bounds
collected over the tree, starting from the unbounded pair and then
clamped by the first sphere of the table when one exists. -/
noncomputable def RegionExpr.bounding_box_raw (e : RegionExpr)
    (surfaces : SurfaceMap) : V3 × V3 :=
  let bds := collect_axis_bounds surfaces e ((⊥, ⊤), (⊥, ⊤), (⊥, ⊤))
  match find_sphere_bounds surfaces with
  | none => ((bds.1.1, bds.2.1.1, bds.2.2.1), (bds.1.2, bds.2.1.2, bds.2.2.2))
  | some sb =>
      ((max bds.1.1 (sb.1.1 : EReal), max bds.2.1.1 (sb.1.2.1 : EReal),
        max bds.2.2.1 (sb.1.2.2 : EReal)),
       (min bds.1.2 (sb.2.1 : EReal), min bds.2.1.2 (sb.2.2.1 : EReal),
        min bds.2.2.2 (sb.2.2.2 : EReal)))

/-- from region.rs: RegionExpr::bounding_box_with_surfaces.  When any
axis ends with lower above upper the empty-box sentinel is returned;
otherwise the computed corners are packed into a box. -/
noncomputable def RegionExpr.bounding_box_with_surfaces (e : RegionExpr)
    (surfaces : SurfaceMap) : BoundingBox :=
  let lu := e.bounding_box_raw surfaces
  if lu.1.1 > lu.2.1 ∨ lu.1.2.1 > lu.2.2.1 ∨ lu.1.2.2 > lu.2.2.2 then
    BoundingBox.new (⊤, ⊤, ⊤) (⊥, ⊥, ⊥)
  else
    BoundingBox.new lu.1 lu.2

/-- from region.rs: Region::bounding_box delegates to the expression. -/
noncomputable def Region.bounding_box (r : Region) (surfaces : SurfaceMap) :
    BoundingBox :=
  r.expr.bounding_box_with_surfaces surfaces

/-!
The cell module.  Its region trees store shared surface references
directly in the halfspace leaves (surface.rs, struct Halfspace, and
the cell.rs constructors), so containment needs no side table.
-/

/-- The halfspace selector of the shared-reference variant: the leaf
holds its Surface directly. -/
inductive HalfspaceTypeRef : Type
  | Above (s : Surface)
  | Below (s : Surface)

/-- The region expression tree of the shared-reference variant. -/
inductive RegionExprRef : Type
  | Halfspace (hs : HalfspaceTypeRef)
  | Union (a b : RegionExprRef)
  | Intersection (a b : RegionExprRef)
  | Complement (r : RegionExprRef)

/-- Containment for the shared-reference variant: the same recursive
semantics, with the leaf surface evaluated directly. -/
def RegionExprRef.contains : RegionExprRef → Point → Prop
  | RegionExprRef.Halfspace (HalfspaceTypeRef.Above s), p => s.evaluate p > 0
  | RegionExprRef.Halfspace (HalfspaceTypeRef.Below s), p => s.evaluate p < 0
  | RegionExprRef.Union a b, p => a.contains p ∨ b.contains p
  | RegionExprRef.Intersection a b, p => a.contains p ∧ b.contains p
  | RegionExprRef.Complement r, p => ¬ r.contains p

/-- from cell.rs: enum MaterialRef. -/
inductive MaterialRef : Type
  | Id (id : ℕ)

/-- from cell.rs: enum CellFill. -/
inductive CellFill : Type
  | Void
  | Material (m : MaterialRef)
  | NestedUniverse (id : ℕ)

/-- from cell.rs: struct Cell. -/
structure Cell : Type where
  cell_id : ℕ
  name : Option String
  region : RegionExprRef
  fill : CellFill

/-- from cell.rs: Cell::contains delegates to the region. -/
def Cell.contains (c : Cell) (p : Point) : Prop :=
  c.region.contains p

/-- from cell.rs: Cell::material_id. -/
def Cell.material_id (c : Cell) : Option ℕ :=
  match c.fill with
  | CellFill.Material (MaterialRef.Id id) => some id
  | _ => none

/-- from cell.rs: struct Universe, with its id-keyed cell collection
modelled as an association list. -/
structure Universe : Type where
  universe_id : ℕ
  name : Option String
  cells : List (ℕ × Cell)

open scoped Classical in
/-- from cell.rs: Universe::find_cell scans the cell collection and
returns the first cell containing the point, or none. -/
noncomputable def Universe.find_cell (u : Universe) (p : Point) : Option Cell :=
  (u.cells.map Prod.snd).find? (fun c => decide (c.contains p))

/-- from cell.rs: Universe::get_cell looks a cell up by id. -/
def Universe.get_cell (u : Universe) (cell_id : ℕ) : Option Cell :=
  u.cells.lookup cell_id

/-!
Concrete scenario data: the unit cube of six axis-aligned plane
halfspaces, the radius-0.4 sphere centered at (0.5, 0.5, 0.5), and
their union.
-/

/-- The x = 0 plane, surface id 1. -/
def plane_x0 : Surface := ⟨1, SurfaceKind.Plane 1 0 0 0, BoundaryType.Vacuum⟩

/-- The x = 1 plane, surface id 2. -/
def plane_x1 : Surface := ⟨2, SurfaceKind.Plane 1 0 0 1, BoundaryType.Vacuum⟩

/-- The y = 0 plane, surface id 3. -/
def plane_y0 : Surface := ⟨3, SurfaceKind.Plane 0 1 0 0, BoundaryType.Vacuum⟩

/-- The y = 1 plane, surface id 4. -/
def plane_y1 : Surface := ⟨4, SurfaceKind.Plane 0 1 0 1, BoundaryType.Vacuum⟩

/-- The z = 0 plane, surface id 5. -/
def plane_z0 : Surface := ⟨5, SurfaceKind.Plane 0 0 1 0, BoundaryType.Vacuum⟩

/-- The z = 1 plane, surface id 6. -/
def plane_z1 : Surface := ⟨6, SurfaceKind.Plane 0 0 1 1, BoundaryType.Vacuum⟩

/-- The six cube planes keyed by id, with no other surfaces. -/
def cube_surfaces : SurfaceMap :=
  [(1, plane_x0), (2, plane_x1), (3, plane_y0), (4, plane_y1),
   (5, plane_z0), (6, plane_z1)]

/-- The unit-cube region: the intersection of the six axis-aligned
plane halfspaces bounding each coordinate to the interval from 0
to 1. -/
def cube_region : RegionExpr :=
  RegionExpr.Intersection
    (RegionExpr.Intersection
      (RegionExpr.Intersection
        (RegionExpr.Intersection
          (RegionExpr.Intersection
            (RegionExpr.Halfspace (HalfspaceType.Above 1))
            (RegionExpr.Halfspace (HalfspaceType.Below 2)))
          (RegionExpr.Halfspace (HalfspaceType.Above 3)))
        (RegionExpr.Halfspace (HalfspaceType.Below 4)))
      (RegionExpr.Halfspace (HalfspaceType.Above 5)))
    (RegionExpr.Halfspace (HalfspaceType.Below 6))

/-- The scenario-2 sphere: radius 0.4 centered at (0.5, 0.5, 0.5),
surface id 7. -/
def sphere_s2 : Surface :=
  ⟨7, SurfaceKind.Sphere 0.5 0.5 0.5 0.4, BoundaryType.Vacuum⟩

/-- The scenario-2 surface table holding only the sphere. -/
def sphere_only_surfaces : SurfaceMap := [(7, sphere_s2)]

/-- The scenario-2 region: the interior (Below) halfspace of the
sphere. -/
def sphere_region : RegionExpr :=
  RegionExpr.Halfspace (HalfspaceType.Below 7)

/-- The scenario-3 surface table: the cube planes plus the sphere. -/
def union_surfaces : SurfaceMap := cube_surfaces ++ [(7, sphere_s2)]

/-- The scenario-3 region: the union of the cube and the sphere. -/
def union_region : RegionExpr := RegionExpr.Union cube_region sphere_region

/-- The unit sphere at the origin, surface id 9, used to check
boundary exclusion at a concrete point. -/
def unit_sphere : Surface :=
  ⟨9, SurfaceKind.Sphere 0 0 0 1, BoundaryType.Vacuum⟩

/-!  Theorems settling the claims.  -/

/-- C1: for every region expression tree and point, containment
evaluation follows the recursive semantics: an Above halfspace leaf
whose surface resolves contains the point iff the surface evaluates
positive there, a Below leaf iff it evaluates negative, Union is
disjunction, Intersection is conjunction, and Complement is
negation. -/
theorem c1_evaluate_contains_follows_semantics
    (surfaces : SurfaceMap) (p : Point) :
    (∀ id s, surfaces.lookup id = some s →
      ((RegionExpr.Halfspace (HalfspaceType.Above id)).evaluate_contains
          p surfaces ↔ s.evaluate p > 0)) ∧
    (∀ id s, surfaces.lookup id = some s →
      ((RegionExpr.Halfspace (HalfspaceType.Below id)).evaluate_contains
          p surfaces ↔ s.evaluate p < 0)) ∧
    (∀ a b : RegionExpr,
      (RegionExpr.Union a b).evaluate_contains p surfaces ↔
        a.evaluate_contains p surfaces ∨ b.evaluate_contains p surfaces) ∧
    (∀ a b : RegionExpr,
      (RegionExpr.Intersection a b).evaluate_contains p surfaces ↔
        a.evaluate_contains p surfaces ∧ b.evaluate_contains p surfaces) ∧
    (∀ r : RegionExpr,
      (RegionExpr.Complement r).evaluate_contains p surfaces ↔
        ¬ r.evaluate_contains p surfaces) := by
  refine ⟨fun id s h => ?_, fun id s h => ?_, fun a b => Iff.rfl,
    fun a b => Iff.rfl, fun r => Iff.rfl⟩ <;>
    simp [RegionExpr.evaluate_contains, h]

/-- Witness for C1 at a concrete surface table and point. -/
theorem c1_witness :
    (RegionExpr.Halfspace (HalfspaceType.Above 1)).evaluate_contains
        ((1 : ℝ), (0 : ℝ), (0 : ℝ)) [(1, plane_x0)] ↔
      plane_x0.evaluate ((1 : ℝ), (0 : ℝ), (0 : ℝ)) > 0 :=
  (c1_evaluate_contains_follows_semantics [(1, plane_x0)]
    ((1 : ℝ), (0 : ℝ), (0 : ℝ))).1 1 plane_x0 rfl

/-- C2: a point on which a surface evaluates to zero is contained in
neither the Above nor the Below halfspace of that surface; in
particular, for a sphere surface, a point at exact Euclidean distance
radius from the center is contained in neither halfspace. -/
theorem c2_boundary_point_in_neither_halfspace
    (surfaces : SurfaceMap) (p : Point) :
    (∀ id s, surfaces.lookup id = some s → s.evaluate p = 0 →
      ¬ (RegionExpr.Halfspace (HalfspaceType.Above id)).evaluate_contains
          p surfaces ∧
      ¬ (RegionExpr.Halfspace (HalfspaceType.Below id)).evaluate_contains
          p surfaces) ∧
    (∀ id sid x0 y0 z0 radius bt,
      surfaces.lookup id =
        some ⟨sid, SurfaceKind.Sphere x0 y0 z0 radius, bt⟩ →
      Real.sqrt ((p.1 - x0) * (p.1 - x0) + (p.2.1 - y0) * (p.2.1 - y0) +
        (p.2.2 - z0) * (p.2.2 - z0)) = radius →
      ¬ (RegionExpr.Halfspace (HalfspaceType.Below id)).evaluate_contains
          p surfaces ∧
      ¬ (RegionExpr.Halfspace (HalfspaceType.Above id)).evaluate_contains
          p surfaces) := by
  constructor
  · intro id s h h0
    constructor <;> simp [RegionExpr.evaluate_contains, h, h0]
  · intro id sid x0 y0 z0 radius bt h hdist
    have h0 : Surface.evaluate ⟨sid, SurfaceKind.Sphere x0 y0 z0 radius, bt⟩ p = 0 := by
      simp [Surface.evaluate, hdist]
    constructor <;> simp [RegionExpr.evaluate_contains, h, h0]

/-- Witness for C2: the point (1,0,0) lies at exact distance 1 from
the center of the unit sphere and is in neither halfspace. -/
theorem c2_witness :
    ¬ (RegionExpr.Halfspace (HalfspaceType.Below 9)).evaluate_contains
        ((1 : ℝ), (0 : ℝ), (0 : ℝ)) [(9, unit_sphere)] ∧
    ¬ (RegionExpr.Halfspace (HalfspaceType.Above 9)).evaluate_contains
        ((1 : ℝ), (0 : ℝ), (0 : ℝ)) [(9, unit_sphere)] :=
  (c2_boundary_point_in_neither_halfspace [(9, unit_sphere)]
      ((1 : ℝ), (0 : ℝ), (0 : ℝ))).2 9 9 0 0 0 1 BoundaryType.Vacuum rfl
    (by norm_num)

/-- C7: De Morgan under containment — the complement of a union
contains exactly the points that the intersection of the complements
contains. -/
theorem c7_de_morgan (A B : Region) (p : Point) (surfaces : SurfaceMap) :
    ((A.union B).complement.contains p surfaces ↔
      (A.complement.intersection B.complement).contains p surfaces) := by
  simp [Region.contains, Region.union, Region.intersection, Region.complement,
    RegionExpr.evaluate_contains, not_or]

/-- C10: a halfspace leaf whose surface id is absent from the table
contains no point, and its complement therefore contains every point;
evaluation is total either way. -/
theorem c10_dangling_id_halfspace (p : Point) (surfaces : SurfaceMap)
    (id : ℕ) (h : surfaces.lookup id = none) :
    ¬ (RegionExpr.Halfspace (HalfspaceType.Above id)).evaluate_contains
        p surfaces ∧
    ¬ (RegionExpr.Halfspace (HalfspaceType.Below id)).evaluate_contains
        p surfaces ∧
    (RegionExpr.Complement
        (RegionExpr.Halfspace (HalfspaceType.Above id))).evaluate_contains
        p surfaces ∧
    (RegionExpr.Complement
        (RegionExpr.Halfspace (HalfspaceType.Below id))).evaluate_contains
        p surfaces := by
  refine ⟨?_, ?_, ?_, ?_⟩ <;> simp [RegionExpr.evaluate_contains, h]

/-- Witness for C10 on the empty surface table. -/
theorem c10_witness :
    ¬ (RegionExpr.Halfspace (HalfspaceType.Above 0)).evaluate_contains
        ((0 : ℝ), (0 : ℝ), (0 : ℝ)) [] ∧
    ¬ (RegionExpr.Halfspace (HalfspaceType.Below 0)).evaluate_contains
        ((0 : ℝ), (0 : ℝ), (0 : ℝ)) [] ∧
    (RegionExpr.Complement
        (RegionExpr.Halfspace (HalfspaceType.Above 0))).evaluate_contains
        ((0 : ℝ), (0 : ℝ), (0 : ℝ)) [] ∧
    (RegionExpr.Complement
        (RegionExpr.Halfspace (HalfspaceType.Below 0))).evaluate_contains
        ((0 : ℝ), (0 : ℝ), (0 : ℝ)) [] :=
  c10_dangling_id_halfspace ((0 : ℝ), (0 : ℝ), (0 : ℝ)) [] 0 rfl

/-- C8: parsing a boundary-type string fails exactly when the
lowercased text is neither of the two recognised names; on success the
constructed surface carries the parsed boundary type, and with no
string supplied the boundary type defaults to Vacuum. -/
theorem c8_boundary_type_validation (x0 y0 z0 radius : ℝ) (sid : ℕ)
    (s : String) :
    ((∃ e, Surface.sphere_str x0 y0 z0 radius sid (some s) =
        Except.error e) ↔
      (to_lowercase s ≠ "transmission" ∧ to_lowercase s ≠ "vacuum")) ∧
    (∀ bt, BoundaryType.from_str_option s = some bt →
      Surface.sphere_str x0 y0 z0 radius sid (some s) =
        Except.ok ⟨sid, SurfaceKind.Sphere x0 y0 z0 radius, bt⟩) ∧
    (Surface.sphere_str x0 y0 z0 radius sid none =
      Except.ok
        ⟨sid, SurfaceKind.Sphere x0 y0 z0 radius, BoundaryType.Vacuum⟩) := by
  refine ⟨?_, ?_, ?_⟩
  · by_cases ht : to_lowercase s = "transmission"
    · simp [Surface.sphere_str, BoundaryType.from_str_option, ht,
        Surface.sphere, Surface.new_sphere]
    · by_cases hv : to_lowercase s = "vacuum"
      · simp [Surface.sphere_str, BoundaryType.from_str_option, ht, hv,
          Surface.sphere, Surface.new_sphere]
      · simp [Surface.sphere_str, BoundaryType.from_str_option, ht, hv]
  · intro bt h
    simp [Surface.sphere_str, h, Surface.sphere, Surface.new_sphere,
      BoundaryType.defaultValue]
  · simp [Surface.sphere_str, Surface.sphere, Surface.new_sphere,
      BoundaryType.defaultValue]

/-- Witness for C8: the mixed-case text VACUUM parses to the Vacuum
boundary type. -/
theorem c8_witness :
    Surface.sphere_str (0 : ℝ) 0 0 1 9 (some "VACUUM") =
      Except.ok ⟨9, SurfaceKind.Sphere 0 0 0 1, BoundaryType.Vacuum⟩ :=
  (c8_boundary_type_validation (0 : ℝ) 0 0 1 9 "VACUUM").2.1
    BoundaryType.Vacuum (by decide)

/-- C9: find_cell returns none exactly when no cell of the universe
contains the point, and any cell it returns contains the point; the
scan is total, so an empty result is a normal outcome. -/
theorem c9_find_cell_correct (u : Universe) (p : Point) :
    (u.find_cell p = none ↔
      ∀ c ∈ u.cells.map Prod.snd, ¬ c.contains p) ∧
    (∀ c, u.find_cell p = some c → c.contains p) := by
  classical
  constructor
  · rw [Universe.find_cell, List.find?_eq_none]
    simp
  · intro c h
    have hfind := List.find?_some h
    simpa using hfind

/-- A concrete cell used to witness C9: the halfspace above the x = 0
plane, filled with material 101. -/
def witness_cell : Cell :=
  ⟨1, none,
    RegionExprRef.Halfspace (HalfspaceTypeRef.Above plane_x0),
    CellFill.Material (MaterialRef.Id 101)⟩

/-- A one-cell universe used to witness C9. -/
def witness_universe : Universe := ⟨0, none, [(1, witness_cell)]⟩

/-- Witness for C9: on the one-cell universe, find_cell at (1,0,0)
returns the cell and that cell contains the point. -/
theorem c9_witness :
    witness_cell.contains ((1 : ℝ), (0 : ℝ), (0 : ℝ)) := by
  classical
  have hc : witness_cell.contains ((1 : ℝ), (0 : ℝ), (0 : ℝ)) := by
    norm_num [Cell.contains, witness_cell, RegionExprRef.contains,
      Surface.evaluate, plane_x0]
  have hfind : witness_universe.find_cell ((1 : ℝ), (0 : ℝ), (0 : ℝ)) =
      some witness_cell :=
    List.find?_cons_of_pos _ (decide_eq_true hc)
  exact (c9_find_cell_correct witness_universe
    ((1 : ℝ), (0 : ℝ), (0 : ℝ))).2 witness_cell hfind

/-!  Evaluation lemmas for the concrete scenario data.  -/

lemma lookup_cube_1 : List.lookup 1 cube_surfaces = some plane_x0 := rfl

lemma lookup_cube_2 : List.lookup 2 cube_surfaces = some plane_x1 := rfl

lemma lookup_cube_3 : List.lookup 3 cube_surfaces = some plane_y0 := rfl

lemma lookup_cube_4 : List.lookup 4 cube_surfaces = some plane_y1 := rfl

lemma lookup_cube_5 : List.lookup 5 cube_surfaces = some plane_z0 := rfl

lemma lookup_cube_6 : List.lookup 6 cube_surfaces = some plane_z1 := rfl

lemma cube_no_sphere : find_sphere_bounds cube_surfaces = none := rfl

lemma sphere_only_find : find_sphere_bounds sphere_only_surfaces =
    some (((0.1 : ℝ), (0.1 : ℝ), (0.1 : ℝ)),
          ((0.9 : ℝ), (0.9 : ℝ), (0.9 : ℝ))) := by
  norm_num [find_sphere_bounds, sphere_only_surfaces, sphere_s2]

lemma union_find_sphere : find_sphere_bounds union_surfaces =
    some (((0.1 : ℝ), (0.1 : ℝ), (0.1 : ℝ)),
          ((0.9 : ℝ), (0.9 : ℝ), (0.9 : ℝ))) := by
  norm_num [find_sphere_bounds, union_surfaces, cube_surfaces, plane_x0,
    plane_x1, plane_y0, plane_y1, plane_z0, plane_z1, sphere_s2]

/-- C5: for the unit cube of six axis-aligned plane halfspaces with no
other surfaces present, the center point is contained, the shifted
point is not, and the bounding box is the unit box. -/
theorem c5_unit_cube_scenario :
    cube_region.evaluate_contains ((0.5 : ℝ), (0.5 : ℝ), (0.5 : ℝ))
      cube_surfaces ∧
    ¬ cube_region.evaluate_contains ((1.5 : ℝ), (0.5 : ℝ), (0.5 : ℝ))
      cube_surfaces ∧
    cube_region.bounding_box_with_surfaces cube_surfaces =
      BoundingBox.new
        (((0 : ℝ) : EReal), ((0 : ℝ) : EReal), ((0 : ℝ) : EReal))
        (((1 : ℝ) : EReal), ((1 : ℝ) : EReal), ((1 : ℝ) : EReal)) := by
  refine ⟨?_, ?_, ?_⟩
  · simp only [cube_region, RegionExpr.evaluate_contains, lookup_cube_1,
      lookup_cube_2, lookup_cube_3, lookup_cube_4, lookup_cube_5,
      lookup_cube_6, plane_x0, plane_x1, plane_y0, plane_y1, plane_z0,
      plane_z1, Surface.evaluate]
    norm_num
  · simp only [cube_region, RegionExpr.evaluate_contains, lookup_cube_1,
      lookup_cube_2, lookup_cube_3, lookup_cube_4, lookup_cube_5,
      lookup_cube_6, plane_x0, plane_x1, plane_y0, plane_y1, plane_z0,
      plane_z1, Surface.evaluate]
    norm_num
  · simp only [RegionExpr.bounding_box_with_surfaces,
      RegionExpr.bounding_box_raw, cube_region, collect_axis_bounds,
      collect_halfspace_bounds, lookup_cube_1, lookup_cube_2, lookup_cube_3,
      lookup_cube_4, lookup_cube_5, lookup_cube_6, cube_no_sphere, plane_x0,
      plane_x1, plane_y0, plane_y1, plane_z0, plane_z1]
    norm_num [max_bot_left, min_top_left, EReal.coe_lt_coe_iff]

/-- C6: whenever the raw bound computation ends with lower above upper
on some axis, the returned box is exactly the empty-box sentinel with
all lower entries plus infinity and all upper entries minus
infinity. -/
theorem c6_empty_box_sentinel (e : RegionExpr) (surfaces : SurfaceMap)
    (h : (e.bounding_box_raw surfaces).1.1 > (e.bounding_box_raw surfaces).2.1 ∨
      (e.bounding_box_raw surfaces).1.2.1 >
        (e.bounding_box_raw surfaces).2.2.1 ∨
      (e.bounding_box_raw surfaces).1.2.2 >
        (e.bounding_box_raw surfaces).2.2.2) :
    e.bounding_box_with_surfaces surfaces =
      BoundingBox.new ((⊤, ⊤, ⊤) : V3) ((⊥, ⊥, ⊥) : V3) := by
  simp only [RegionExpr.bounding_box_with_surfaces]
  rw [if_pos h]

/-- A plane at x = 2 used to build a contradictory slab. -/
def conflict_lo : Surface := ⟨11, SurfaceKind.Plane 1 0 0 2, BoundaryType.Vacuum⟩

/-- A plane at x = 1 used to build a contradictory slab. -/
def conflict_hi : Surface := ⟨12, SurfaceKind.Plane 1 0 0 1, BoundaryType.Vacuum⟩

/-- The two conflicting planes keyed by id. -/
def conflict_surfaces : SurfaceMap := [(11, conflict_lo), (12, conflict_hi)]

/-- The empty slab x > 2 and x < 1. -/
def conflict_region : RegionExpr :=
  RegionExpr.Intersection (RegionExpr.Halfspace (HalfspaceType.Above 11))
    (RegionExpr.Halfspace (HalfspaceType.Below 12))

lemma lookup_conflict_11 : List.lookup 11 conflict_surfaces = some conflict_lo :=
  rfl

lemma lookup_conflict_12 : List.lookup 12 conflict_surfaces = some conflict_hi :=
  rfl

lemma conflict_no_sphere : find_sphere_bounds conflict_surfaces = none := rfl

/-- Witness for C6: the region between x above 2 and x below 1 ends
with a crossed x axis and yields the sentinel box. -/
theorem c6_witness :
    conflict_region.bounding_box_with_surfaces conflict_surfaces =
      BoundingBox.new ((⊤, ⊤, ⊤) : V3) ((⊥, ⊥, ⊥) : V3) :=
  c6_empty_box_sentinel conflict_region conflict_surfaces (by
    simp only [RegionExpr.bounding_box_raw, conflict_region,
      collect_axis_bounds, collect_halfspace_bounds, lookup_conflict_11,
      lookup_conflict_12, conflict_no_sphere, conflict_lo, conflict_hi]
    refine Or.inl ?_
    norm_num [max_bot_left, min_top_left]
    exact_mod_cast one_lt_two)

/-- Counterexample to C3: with the scenario-2 sphere present in the
surface table, the bounding box of a Complement region is the sphere's
box, not the fully unbounded box. -/
theorem c3_counterexample :
    (RegionExpr.Complement
        (RegionExpr.Halfspace
          (HalfspaceType.Below 7))).bounding_box_with_surfaces
        sphere_only_surfaces =
      BoundingBox.new
        (((0.1 : ℝ) : EReal), ((0.1 : ℝ) : EReal), ((0.1 : ℝ) : EReal))
        (((0.9 : ℝ) : EReal), ((0.9 : ℝ) : EReal), ((0.9 : ℝ) : EReal)) ∧
    (RegionExpr.Complement
        (RegionExpr.Halfspace
          (HalfspaceType.Below 7))).bounding_box_with_surfaces
        sphere_only_surfaces ≠
      BoundingBox.new ((⊥, ⊥, ⊥) : V3) ((⊤, ⊤, ⊤) : V3) := by
  have hbox : (RegionExpr.Complement
        (RegionExpr.Halfspace
          (HalfspaceType.Below 7))).bounding_box_with_surfaces
        sphere_only_surfaces =
      BoundingBox.new
        (((0.1 : ℝ) : EReal), ((0.1 : ℝ) : EReal), ((0.1 : ℝ) : EReal))
        (((0.9 : ℝ) : EReal), ((0.9 : ℝ) : EReal), ((0.9 : ℝ) : EReal)) := by
    simp only [RegionExpr.bounding_box_with_surfaces,
      RegionExpr.bounding_box_raw, collect_axis_bounds, sphere_only_find]
    norm_num [max_bot_left, min_top_left, EReal.coe_lt_coe_iff]
  refine ⟨hbox, ?_⟩
  rw [hbox]
  intro hcontra
  have hfst := congrArg (fun b => b.lower_left_corner.1) hcontra
  simp only [BoundingBox.new] at hfst
  exact EReal.coe_ne_bot _ hfst

/-- C3 as amended: the bounding box of a Complement region is the
fully unbounded box provided the surface table holds no sphere; a
sphere anywhere in the table clamps it instead. -/
theorem c3_complement_unbounded_without_sphere (r : RegionExpr)
    (surfaces : SurfaceMap)
    (h : find_sphere_bounds surfaces = none) :
    (RegionExpr.Complement r).bounding_box_with_surfaces surfaces =
      BoundingBox.new ((⊥, ⊥, ⊥) : V3) ((⊤, ⊤, ⊤) : V3) := by
  simp only [RegionExpr.bounding_box_with_surfaces,
    RegionExpr.bounding_box_raw, collect_axis_bounds, h]
  norm_num [not_lt_bot]

/-- Witness for the amended C3 on the sphere-free cube table. -/
theorem c3_amended_witness :
    (RegionExpr.Complement cube_region).bounding_box_with_surfaces
        cube_surfaces =
      BoundingBox.new ((⊥, ⊥, ⊥) : V3) ((⊤, ⊤, ⊤) : V3) :=
  c3_complement_unbounded_without_sphere cube_region cube_surfaces rfl

/-- Counterexample to C4: the box of the cube-with-sphere union is the
sphere's box, which neither spans the two component boxes nor takes
the per-axis min of the component lower bounds. -/
theorem c4_counterexample :
    cube_region.bounding_box_with_surfaces cube_surfaces =
      BoundingBox.new
        (((0 : ℝ) : EReal), ((0 : ℝ) : EReal), ((0 : ℝ) : EReal))
        (((1 : ℝ) : EReal), ((1 : ℝ) : EReal), ((1 : ℝ) : EReal)) ∧
    sphere_region.bounding_box_with_surfaces sphere_only_surfaces =
      BoundingBox.new
        (((0.1 : ℝ) : EReal), ((0.1 : ℝ) : EReal), ((0.1 : ℝ) : EReal))
        (((0.9 : ℝ) : EReal), ((0.9 : ℝ) : EReal), ((0.9 : ℝ) : EReal)) ∧
    union_region.bounding_box_with_surfaces union_surfaces =
      BoundingBox.new
        (((0.1 : ℝ) : EReal), ((0.1 : ℝ) : EReal), ((0.1 : ℝ) : EReal))
        (((0.9 : ℝ) : EReal), ((0.9 : ℝ) : EReal), ((0.9 : ℝ) : EReal)) ∧
    (union_region.bounding_box_with_surfaces
        union_surfaces).lower_left_corner.1 ≠
      min (cube_region.bounding_box_with_surfaces
            cube_surfaces).lower_left_corner.1
        (sphere_region.bounding_box_with_surfaces
            sphere_only_surfaces).lower_left_corner.1 := by
  have hcube : cube_region.bounding_box_with_surfaces cube_surfaces =
      BoundingBox.new
        (((0 : ℝ) : EReal), ((0 : ℝ) : EReal), ((0 : ℝ) : EReal))
        (((1 : ℝ) : EReal), ((1 : ℝ) : EReal), ((1 : ℝ) : EReal)) := by
    simp only [RegionExpr.bounding_box_with_surfaces,
      RegionExpr.bounding_box_raw, cube_region, collect_axis_bounds,
      collect_halfspace_bounds, lookup_cube_1, lookup_cube_2, lookup_cube_3,
      lookup_cube_4, lookup_cube_5, lookup_cube_6, cube_no_sphere, plane_x0,
      plane_x1, plane_y0, plane_y1, plane_z0, plane_z1]
    norm_num [max_bot_left, min_top_left, EReal.coe_lt_coe_iff]
  have hsph : sphere_region.bounding_box_with_surfaces sphere_only_surfaces =
      BoundingBox.new
        (((0.1 : ℝ) : EReal), ((0.1 : ℝ) : EReal), ((0.1 : ℝ) : EReal))
        (((0.9 : ℝ) : EReal), ((0.9 : ℝ) : EReal), ((0.9 : ℝ) : EReal)) := by
    simp only [RegionExpr.bounding_box_with_surfaces,
      RegionExpr.bounding_box_raw, sphere_region, collect_axis_bounds,
      collect_halfspace_bounds, sphere_only_find, sphere_s2]
    norm_num [List.lookup, sphere_only_surfaces, sphere_s2, max_bot_left,
      min_top_left, EReal.coe_lt_coe_iff]
  have huni : union_region.bounding_box_with_surfaces union_surfaces =
      BoundingBox.new
        (((0.1 : ℝ) : EReal), ((0.1 : ℝ) : EReal), ((0.1 : ℝ) : EReal))
        (((0.9 : ℝ) : EReal), ((0.9 : ℝ) : EReal), ((0.9 : ℝ) : EReal)) := by
    simp only [RegionExpr.bounding_box_with_surfaces,
      RegionExpr.bounding_box_raw, union_region, collect_axis_bounds,
      union_find_sphere]
    norm_num [max_bot_left, min_top_left, EReal.coe_lt_coe_iff]
  refine ⟨hcube, hsph, huni, ?_⟩
  rw [hcube, hsph, huni]
  simp only [BoundingBox.new]
  rw [min_eq_left (by exact_mod_cast (by norm_num : (0 : ℝ) ≤ 0.1))]
  exact_mod_cast (by norm_num : (0.1 : ℝ) ≠ 0)

/-- C4 as amended: Union nodes contribute no axis bounds at all, so
the box of a Union keeps the unbounded per-axis bounds, clamped only
by the first sphere of the surface table when one exists; for the
cube-with-sphere union the resulting box is the sphere box from 0.1 to
0.9 on every axis. -/
theorem c4_union_contributes_no_bounds :
    (∀ (a b : RegionExpr) (surfaces : SurfaceMap) (bds : Bounds3),
      collect_axis_bounds surfaces (RegionExpr.Union a b) bds = bds) ∧
    union_region.bounding_box_with_surfaces union_surfaces =
      BoundingBox.new
        (((0.1 : ℝ) : EReal), ((0.1 : ℝ) : EReal), ((0.1 : ℝ) : EReal))
        (((0.9 : ℝ) : EReal), ((0.9 : ℝ) : EReal), ((0.9 : ℝ) : EReal)) := by
  refine ⟨fun a b surfaces bds => rfl, ?_⟩
  simp only [RegionExpr.bounding_box_with_surfaces,
    RegionExpr.bounding_box_raw, union_region, collect_axis_bounds,
    union_find_sphere]
  norm_num [max_bot_left, min_top_left, EReal.coe_lt_coe_iff]

end CSG
